import Mathlib

/-!
Shallow embedding of `scripts/simple-server.py`, a minimal request-logging
HTTP server built on Python's `BaseHTTPRequestHandler`.

The handler class `SimpleHandler` defines three methods:

* `log_request_info`: computes `content_length = int(self.headers.get('Content-Length', 0))`,
  then `body = self.rfile.read(content_length).decode('utf-8') if content_length else ''`,
  then emits four `logging.info` records (Path, Method, Headers, Body);
* `do_GET` / `do_POST`: both call `log_request_info`, then
  `send_response(200)`, `end_headers()`, and write the body bytes `b"OK"`.

We model a request by its Python-visible attributes (`path`, `command`,
`headers` as a wire-ordered list of name/value pairs, and `rfile` as the byte
stream available to the handler), model each observable step as an `Event`,
and model a Python exception as an aborted run carrying a `PyError`.
-/

set_option autoImplicit false

namespace SimpleServer

/-- A byte of the request body stream (a value `0..255`). -/
abbrev Byte := Nat

/-- Whitespace characters stripped by Python's `int()` (ASCII subset). -/
def isPySpace (c : Char) : Bool :=
  c = ' ' || c = '\t' || c = '\n' || c = '\r' || c = Char.ofNat 11 || c = Char.ofNat 12

/-- Strip leading and trailing whitespace, as Python's `int()` does. -/
def pyStrip (cs : List Char) : List Char :=
  ((cs.dropWhile isPySpace).reverse.dropWhile isPySpace).reverse

/-- Decimal digit test for `int()` parsing (ASCII subset). -/
def isDigitChar (c : Char) : Bool :=
  '0' ≤ c && c ≤ '9'

/-- Digit-run parser of Python's `int()`: a nonempty run of decimal digits,
with single underscores allowed only between digits. The flag records whether
the previous character was a digit (so the first character must be one). -/
def pyDigits (cs : List Char) (acc : Nat) (lastDigit : Bool) : Option Nat :=
  match cs with
  | [] => if lastDigit then some acc else none
  | c :: rest =>
    if isDigitChar c then pyDigits rest (acc * 10 + (c.toNat - 48)) true
    else if c = '_' && lastDigit then pyDigits rest acc false
    else none

/-- Python's `int(s)` on a string: strip whitespace, optional sign, decimal
digits (underscore separators allowed). `none` models a raised `ValueError`. -/
def pyInt (s : String) : Option Int :=
  match pyStrip s.toList with
  | [] => none
  | c :: rest =>
    if c = '+' then (pyDigits rest 0 false).map Int.ofNat
    else if c = '-' then (pyDigits rest 0 false).map (fun n => -(Int.ofNat n))
    else (pyDigits (c :: rest) 0 false).map Int.ofNat

/-- ASCII lowercasing of a string, as `str.lower()` does on header names. -/
def lowerStr (s : String) : String :=
  String.mk (s.data.map Char.toLower)

/-- `self.headers.get(name)`: first header whose name matches
case-insensitively (as in `email.message.Message.get`), else `none`. -/
def headersGet (hs : List (String × String)) (name : String) : Option String :=
  (hs.find? (fun p => lowerStr p.1 == lowerStr name)).map Prod.snd

/-- `int(self.headers.get('Content-Length', 0))`: the default `0` is already
an `int`; a present header value goes through `int()` and may raise. -/
def contentLengthOf (hs : List (String × String)) : Option Int :=
  match headersGet hs "Content-Length" with
  | none => some 0
  | some v => pyInt v

/-- A UTF-8 continuation byte (`0x80..0xBF`). -/
def contOk (b : Byte) : Bool :=
  0x80 ≤ b && b ≤ 0xBF

/-- Allowed second byte of a three-byte UTF-8 sequence headed by `b`
(Unicode Table 3-7: `0xE0` narrows to `A0..BF`, `0xED` to `80..9F`). -/
def cont3Ok (b b1 : Byte) : Bool :=
  if b = 0xE0 then 0xA0 ≤ b1 && b1 ≤ 0xBF
  else if b = 0xED then 0x80 ≤ b1 && b1 ≤ 0x9F
  else contOk b1

/-- Allowed second byte of a four-byte UTF-8 sequence headed by `b`
(`0xF0` narrows to `90..BF`, `0xF4` to `80..8F`). -/
def cont4Ok (b b1 : Byte) : Bool :=
  if b = 0xF0 then 0x90 ≤ b1 && b1 ≤ 0xBF
  else if b = 0xF4 then 0x80 ≤ b1 && b1 ≤ 0x8F
  else contOk b1

/-- Strict UTF-8 decoding of a byte list into characters, following the
well-formed byte patterns CPython's `bytes.decode('utf-8')` enforces
(no overlong forms, no surrogates, nothing above `U+10FFFF`).
`none` models a raised `UnicodeDecodeError`. -/
def utf8DecodeList : List Byte → Option (List Char)
  | [] => some []
  | b :: rest =>
    if b ≤ 0x7F then
      (utf8DecodeList rest).map (fun cs => Char.ofNat b :: cs)
    else if 0xC2 ≤ b && b ≤ 0xDF then
      match rest with
      | b1 :: rest1 =>
        if contOk b1 then
          (utf8DecodeList rest1).map
            (fun cs => Char.ofNat ((b - 0xC0) * 0x40 + (b1 - 0x80)) :: cs)
        else none
      | [] => none
    else if 0xE0 ≤ b && b ≤ 0xEF then
      match rest with
      | b1 :: b2 :: rest2 =>
        if cont3Ok b b1 && contOk b2 then
          (utf8DecodeList rest2).map
            (fun cs => Char.ofNat ((b - 0xE0) * 0x1000 + (b1 - 0x80) * 0x40 + (b2 - 0x80)) :: cs)
        else none
      | _ => none
    else if 0xF0 ≤ b && b ≤ 0xF4 then
      match rest with
      | b1 :: b2 :: b3 :: rest3 =>
        if cont4Ok b b1 && contOk b2 && contOk b3 then
          (utf8DecodeList rest3).map
            (fun cs => Char.ofNat ((b - 0xF0) * 0x40000 + (b1 - 0x80) * 0x1000
                                   + (b2 - 0x80) * 0x40 + (b3 - 0x80)) :: cs)
        else none
      | _ => none
    else none

/-- `bs.decode('utf-8')` as a string; `none` models `UnicodeDecodeError`. -/
def utf8Decode (bs : List Byte) : Option String :=
  (utf8DecodeList bs).map (fun cs => String.mk cs)

/-- `self.rfile.read(n)` on a buffered stream holding `stream`: a negative
count reads to end of stream; otherwise up to `n` bytes are consumed.
Returns the bytes read and the remaining stream. -/
def pyRead (n : Int) (stream : List Byte) : List Byte × List Byte :=
  if n < 0 then (stream, [])
  else (stream.take n.toNat, stream.drop n.toNat)

/-- A Python exception the handler can raise. -/
inductive PyError where
  | valueError
  | unicodeDecodeError
  deriving DecidableEq, Repr

/-- An observable step the handler performs. -/
inductive Event where
  /-- `self.rfile.read(count)` returning the listed bytes. -/
  | read (count : Int) (returned : List Byte)
  /-- one `logging.info(msg)` call, i.e. one log record. -/
  | logInfo (msg : String)
  /-- `self.send_response(status)`. -/
  | sendResponse (status : Nat)
  /-- `self.end_headers()`. -/
  | endHeaders
  /-- `self.wfile.write(bs)`: the response body bytes. -/
  | writeBody (bs : List Byte)
  deriving DecidableEq, Repr

/-- Outcome of running a handler method: the events it performed in order,
the unconsumed part of `rfile`, and `some e` when it aborted raising `e`. -/
structure RunResult where
  events : List Event
  rfileRest : List Byte
  outcome : Option PyError
  deriving DecidableEq, Repr

/-- The state `SimpleHandler` reads: `self.path`, `self.command` (the method
word of the request line), `self.headers` in wire order, and the body byte
stream behind `self.rfile`. -/
structure Request where
  path : String
  command : String
  headers : List (String × String)
  rfile : List Byte
  deriving DecidableEq, Repr

/-- One rendered header line, as `str(self.headers)` prints it. -/
def headerLine (p : String × String) : String :=
  p.1 ++ ": " ++ p.2 ++ "\n"

/-- Concatenation of rendered header lines, in wire order. -/
def hsBlock : List (String × String) → String
  | [] => ""
  | h :: t => headerLine h ++ hsBlock t

/-- `str(self.headers)`: every header line in wire order, duplicates kept,
followed by the blank line terminating the header block. -/
def renderHeaders (hs : List (String × String)) : String :=
  hsBlock hs ++ "\n"

/-- `SimpleHandler.log_request_info`, line by line:
`content_length = int(self.headers.get('Content-Length', 0))` (may raise
`ValueError`); `body = self.rfile.read(content_length).decode('utf-8') if
content_length else ''` (the read happens for any nonzero length, and the
decode may raise `UnicodeDecodeError`); then four `logging.info` records. -/
def log_request_info (req : Request) : RunResult :=
  match contentLengthOf req.headers with
  | none => { events := [], rfileRest := req.rfile, outcome := some PyError.valueError }
  | some content_length =>
    if content_length ≠ 0 then
      let r := pyRead content_length req.rfile
      match utf8Decode r.1 with
      | none =>
        { events := [Event.read content_length r.1]
          rfileRest := r.2
          outcome := some PyError.unicodeDecodeError }
      | some body =>
        { events := [Event.read content_length r.1,
                     Event.logInfo ("Path: " ++ req.path),
                     Event.logInfo ("Method: " ++ req.command),
                     Event.logInfo ("Headers: " ++ renderHeaders req.headers),
                     Event.logInfo ("Body: " ++ body)]
          rfileRest := r.2
          outcome := none }
    else
      { events := [Event.logInfo ("Path: " ++ req.path),
                   Event.logInfo ("Method: " ++ req.command),
                   Event.logInfo ("Headers: " ++ renderHeaders req.headers),
                   Event.logInfo ("Body: " ++ "")]
        rfileRest := req.rfile
        outcome := none }

/-- The response steps shared by `do_GET` and `do_POST`:
`send_response(200)`, `end_headers()`, `wfile.write(b"OK")`
(`b"OK"` is the two ASCII bytes `0x4F 0x4B`). -/
def respondEvents : List Event :=
  [Event.sendResponse 200, Event.endHeaders, Event.writeBody [0x4F, 0x4B]]

/-- `SimpleHandler.do_GET`: run `log_request_info`; if it raised, the
exception propagates and no response step runs; otherwise respond. -/
def do_GET (req : Request) : RunResult :=
  let r := log_request_info req
  match r.outcome with
  | some _ => r
  | none => { events := r.events ++ respondEvents, rfileRest := r.rfileRest, outcome := none }

/-- `SimpleHandler.do_POST`: textually the same body as `do_GET`. -/
def do_POST (req : Request) : RunResult :=
  let r := log_request_info req
  match r.outcome with
  | some _ => r
  | none => { events := r.events ++ respondEvents, rfileRest := r.rfileRest, outcome := none }

/-- The messages of the log records in a trace, in order. -/
def logMessages (es : List Event) : List String :=
  es.filterMap (fun e => match e with | Event.logInfo m => some m | _ => none)

/-- Whether an event is a `send_response` step. -/
def isSend : Event → Bool
  | Event.sendResponse _ => true
  | _ => false

/-- The body text `log_request_info` would log for this request, when it
completes without raising: content length `0` gives the empty string,
otherwise the bytes read must decode. -/
def bodyTextOf (req : Request) : Option String :=
  match contentLengthOf req.headers with
  | none => none
  | some cl => if cl ≠ 0 then utf8Decode (pyRead cl req.rfile).1 else some ""

/-- The log record announcing method `c`. -/
def methodMsg (c : String) : Event :=
  Event.logInfo ("Method: " ++ c)

/-- Replace the method log record of method `a` by that of method `b`,
leaving every other event unchanged. -/
def swapMethod (a b : String) (e : Event) : Event :=
  if e = methodMsg a then methodMsg b else e

/-- A GET request to `/health` with one `Host` header and no body. -/
def reqHealth : Request :=
  { path := "/health", command := "GET", headers := [("Host", "localhost")], rfile := [] }

/-- A POST declaring `Content-Length: 1` whose single body byte `0xFF`
is not valid UTF-8. -/
def reqBadUtf8 : Request :=
  { path := "/upload", command := "POST", headers := [("Content-Length", "1")], rfile := [0xFF] }

/-- A POST whose `Content-Length` value `abc` does not parse as an integer. -/
def reqBadLen : Request :=
  { path := "/submit", command := "POST", headers := [("Content-Length", "abc")], rfile := [] }

/-- A POST declaring `Content-Length: 11` whose stream holds the eleven bytes
of `hello world` followed by two further bytes. -/
def reqHello : Request :=
  { path := "/echo", command := "POST", headers := [("Content-Length", "11")],
    rfile := "hello world!!".data.map Char.toNat }

/-- A POST carrying two `X-Trace-Id` headers with different values. -/
def reqDup : Request :=
  { path := "/t", command := "POST",
    headers := [("X-Trace-Id", "a"), ("Host", "h"), ("X-Trace-Id", "b")], rfile := [] }

/-- A POST declaring `Content-Length: -5` with one body byte available. -/
def reqNeg : Request :=
  { path := "/n", command := "POST", headers := [("Content-Length", "-5")], rfile := [0x61] }

/-- A POST declaring `Content-Length: 0` with a byte available on the stream. -/
def reqZero : Request :=
  { path := "/z", command := "POST", headers := [("Content-Length", "0")], rfile := [0x61] }

/-! Helper lemmas characterizing the handler branch by branch. -/

theorem lri_valueError (req : Request) (h : contentLengthOf req.headers = none) :
    log_request_info req = ⟨[], req.rfile, some PyError.valueError⟩ := by
  unfold log_request_info
  rw [h]

theorem lri_zero (req : Request) (h : contentLengthOf req.headers = some 0) :
    log_request_info req =
      { events := [Event.logInfo ("Path: " ++ req.path),
                   Event.logInfo ("Method: " ++ req.command),
                   Event.logInfo ("Headers: " ++ renderHeaders req.headers),
                   Event.logInfo ("Body: " ++ "")],
        rfileRest := req.rfile, outcome := none } := by
  unfold log_request_info
  rw [h]
  simp

theorem lri_ok (req : Request) (cl : Int) (b : String)
    (h : contentLengthOf req.headers = some cl) (h0 : cl ≠ 0)
    (hd : utf8Decode (pyRead cl req.rfile).1 = some b) :
    log_request_info req =
      { events := [Event.read cl (pyRead cl req.rfile).1,
                   Event.logInfo ("Path: " ++ req.path),
                   Event.logInfo ("Method: " ++ req.command),
                   Event.logInfo ("Headers: " ++ renderHeaders req.headers),
                   Event.logInfo ("Body: " ++ b)],
        rfileRest := (pyRead cl req.rfile).2, outcome := none } := by
  unfold log_request_info
  rw [h]
  simp [h0, hd]

theorem lri_decodeError (req : Request) (cl : Int)
    (h : contentLengthOf req.headers = some cl) (h0 : cl ≠ 0)
    (hd : utf8Decode (pyRead cl req.rfile).1 = none) :
    log_request_info req =
      { events := [Event.read cl (pyRead cl req.rfile).1],
        rfileRest := (pyRead cl req.rfile).2, outcome := some PyError.unicodeDecodeError } := by
  unfold log_request_info
  rw [h]
  simp [h0, hd]

theorem do_GET_eq_do_POST (req : Request) : do_GET req = do_POST req := rfl

theorem do_GET_ok (req : Request) (h : (log_request_info req).outcome = none) :
    do_GET req = { events := (log_request_info req).events ++ respondEvents,
                   rfileRest := (log_request_info req).rfileRest, outcome := none } := by
  unfold do_GET
  simp [h]

theorem do_GET_err (req : Request) (e : PyError) (h : (log_request_info req).outcome = some e) :
    do_GET req = log_request_info req := by
  unfold do_GET
  simp [h]

theorem logMessages_append (l1 l2 : List Event) :
    logMessages (l1 ++ l2) = logMessages l1 ++ logMessages l2 :=
  List.filterMap_append l1 l2 _

theorem logMessages_respondEvents : logMessages respondEvents = [] := rfl

theorem isSend_false_of_mem_lri {req : Request} {e : Event}
    (he : e ∈ (log_request_info req).events) : isSend e = false := by
  rcases hcl : contentLengthOf req.headers with _ | cl
  · rw [lri_valueError req hcl] at he
    simp at he
  · by_cases h0 : cl = 0
    · subst h0
      rw [lri_zero req hcl] at he
      simp only [List.mem_cons, List.not_mem_nil, or_false] at he
      rcases he with h | h | h | h <;> subst h <;> rfl
    · rcases hd : utf8Decode (pyRead cl req.rfile).1 with _ | b
      · rw [lri_decodeError req cl hcl h0 hd] at he
        simp only [List.mem_cons, List.not_mem_nil, or_false] at he
        subst he
        rfl
      · rw [lri_ok req cl b hcl h0 hd] at he
        simp only [List.mem_cons, List.not_mem_nil, or_false] at he
        rcases he with h | h | h | h | h <;> subst h <;> rfl

theorem not_logInfo_mem_respondEvents (m : String) : Event.logInfo m ∉ respondEvents := by
  simp [respondEvents]

theorem success_trace (req : Request) (b : String) (h : bodyTextOf req = some b) :
    (log_request_info req).outcome = none ∧
    logMessages (log_request_info req).events =
      ["Path: " ++ req.path, "Method: " ++ req.command,
       "Headers: " ++ renderHeaders req.headers, "Body: " ++ b] := by
  rcases hcl : contentLengthOf req.headers with _ | cl
  · unfold bodyTextOf at h
    rw [hcl] at h
    cases h
  · by_cases h0 : cl = 0
    · subst h0
      unfold bodyTextOf at h
      rw [hcl] at h
      simp at h
      subst h
      rw [lri_zero req hcl]
      exact ⟨rfl, rfl⟩
    · unfold bodyTextOf at h
      rw [hcl] at h
      simp [h0] at h
      rw [lri_ok req cl b hcl h0 h]
      exact ⟨rfl, rfl⟩

theorem logMessages_do_GET (req : Request) (b : String) (h : bodyTextOf req = some b) :
    logMessages (do_GET req).events =
      ["Path: " ++ req.path, "Method: " ++ req.command,
       "Headers: " ++ renderHeaders req.headers, "Body: " ++ b] := by
  rw [do_GET_ok req (success_trace req b h).1, logMessages_append,
     (success_trace req b h).2, logMessages_respondEvents, List.append_nil]

theorem hsBlock_append (a b : List (String × String)) :
    hsBlock (a ++ b) = hsBlock a ++ hsBlock b := by
  induction a with
  | nil => simp [hsBlock]
  | cons hd tl ih => simp [hsBlock, ih, String.append_assoc]

theorem path_msg_ne (p : String) : "Path: " ++ p ≠ "Method: GET" := by
  intro h
  have h2 : some 'P' = some 'M' := congrArg (fun s => s.data.head?) h
  exact absurd h2 (by decide)

theorem headers_msg_ne (p : String) : "Headers: " ++ p ≠ "Method: GET" := by
  intro h
  have h2 : some 'H' = some 'M' := congrArg (fun s => s.data.head?) h
  exact absurd h2 (by decide)

theorem body_msg_ne (p : String) : "Body: " ++ p ≠ "Method: GET" := by
  intro h
  have h2 : some 'B' = some 'M' := congrArg (fun s => s.data.head?) h
  exact absurd h2 (by decide)

/-- C1 (counterexample): the claim says every valid POST request gets a 200
response with body `OK` regardless of body; but on `reqBadUtf8` — a valid
POST whose declared body byte is not UTF-8 — the handler raises before
responding: no `send_response(200)` and no `OK` body are ever written. -/
theorem c1_counterexample :
    ¬ (Event.sendResponse 200 ∈ (do_POST reqBadUtf8).events ∧
       Event.writeBody [0x4F, 0x4B] ∈ (do_POST reqBadUtf8).events) := by
  decide

/-- C1 (amended): for every GET or POST request on which `log_request_info`
completes without raising, the handler responds with status 200 and writes
exactly the two ASCII bytes `OK`, and nothing else, after the log steps. -/
theorem c1_response_ok (req : Request) (h : (log_request_info req).outcome = none) :
    ((do_GET req).outcome = none ∧
      (do_GET req).events = (log_request_info req).events ++
        [Event.sendResponse 200, Event.endHeaders, Event.writeBody [0x4F, 0x4B]]) ∧
    ((do_POST req).outcome = none ∧
      (do_POST req).events = (log_request_info req).events ++
        [Event.sendResponse 200, Event.endHeaders, Event.writeBody [0x4F, 0x4B]]) := by
  have hg := do_GET_ok req h
  refine ⟨?_, ?_⟩
  · rw [hg]
    exact ⟨rfl, rfl⟩
  · rw [← do_GET_eq_do_POST, hg]
    exact ⟨rfl, rfl⟩

/-- C1 (witness): the amended statement evaluated on the GET request
`reqHealth`, whose handling completes without raising. -/
theorem c1_response_ok_witness :
    (log_request_info reqHealth).outcome = none ∧
    (((do_GET reqHealth).outcome = none ∧
      (do_GET reqHealth).events = (log_request_info reqHealth).events ++
        [Event.sendResponse 200, Event.endHeaders, Event.writeBody [0x4F, 0x4B]]) ∧
    ((do_POST reqHealth).outcome = none ∧
      (do_POST reqHealth).events = (log_request_info reqHealth).events ++
        [Event.sendResponse 200, Event.endHeaders, Event.writeBody [0x4F, 0x4B]])) :=
  ⟨by decide, c1_response_ok reqHealth (by decide)⟩

/-- C2 (counterexample): the claim says an unparsable `Content-Length`
is treated as 0, logging an empty body without failing; but on `reqBadLen`
(value `abc`) the handler fails — `int('abc')` raises `ValueError` —
and no empty-body record is logged. -/
theorem c2_counterexample :
    ¬ ((do_POST reqBadLen).outcome = none ∧
       "Body: " ∈ logMessages (do_POST reqBadLen).events) := by
  decide

/-- C2 (amended): an absent `Content-Length` defaults to 0 — the handler
reads no body, logs the empty body string and does not fail — while a
present value that does not parse as a Python integer raises `ValueError`
before anything is logged. -/
theorem c2_content_length_default (req : Request) :
    (headersGet req.headers "Content-Length" = none →
      log_request_info req =
        { events := [Event.logInfo ("Path: " ++ req.path),
                     Event.logInfo ("Method: " ++ req.command),
                     Event.logInfo ("Headers: " ++ renderHeaders req.headers),
                     Event.logInfo ("Body: " ++ "")],
          rfileRest := req.rfile, outcome := none }) ∧
    (∀ v, headersGet req.headers "Content-Length" = some v → pyInt v = none →
      log_request_info req =
        { events := [], rfileRest := req.rfile, outcome := some PyError.valueError }) := by
  constructor
  · intro h
    refine lri_zero req ?_
    unfold contentLengthOf
    rw [h]
  · intro v hv hp
    refine lri_valueError req ?_
    unfold contentLengthOf
    rw [hv]
    exact hp

/-- C2 (witness): the amended statement evaluated on `reqHealth` (header
absent) and `reqBadLen` (header value `abc`, which `int()` rejects). -/
theorem c2_content_length_default_witness :
    (headersGet reqHealth.headers "Content-Length" = none ∧
      log_request_info reqHealth =
        { events := [Event.logInfo ("Path: " ++ reqHealth.path),
                     Event.logInfo ("Method: " ++ reqHealth.command),
                     Event.logInfo ("Headers: " ++ renderHeaders reqHealth.headers),
                     Event.logInfo ("Body: " ++ "")],
          rfileRest := reqHealth.rfile, outcome := none }) ∧
    (headersGet reqBadLen.headers "Content-Length" = some "abc" ∧ pyInt "abc" = none ∧
      log_request_info reqBadLen =
        { events := [], rfileRest := reqBadLen.rfile, outcome := some PyError.valueError }) :=
  ⟨⟨by decide, (c2_content_length_default reqHealth).1 (by decide)⟩,
   ⟨by decide, by decide,
    (c2_content_length_default reqBadLen).2 "abc" (by decide) (by decide)⟩⟩

/-- C3 (counterexample): the claim says exactly one log record is produced
per accepted request; but handling `reqHealth` produces four log records
(one `logging.info` call per field), not one. -/
theorem c3_counterexample :
    (logMessages (do_GET reqHealth).events).length = 4 ∧
    (logMessages (do_GET reqHealth).events).length ≠ 1 := by
  decide

/-- C3 (amended): every GET or POST request whose handling completes
produces exactly four log records, in order: the request path, the HTTP
method, the full header block, and the body text (empty if no body). -/
theorem c3_four_log_records (req : Request) (b : String) (h : bodyTextOf req = some b) :
    logMessages (do_GET req).events =
      ["Path: " ++ req.path, "Method: " ++ req.command,
       "Headers: " ++ renderHeaders req.headers, "Body: " ++ b] ∧
    logMessages (do_POST req).events =
      ["Path: " ++ req.path, "Method: " ++ req.command,
       "Headers: " ++ renderHeaders req.headers, "Body: " ++ b] := by
  refine ⟨logMessages_do_GET req b h, ?_⟩
  rw [← do_GET_eq_do_POST]
  exact logMessages_do_GET req b h

/-- C3 (witness): the amended statement evaluated on `reqHealth`, whose
body text is the empty string. -/
theorem c3_four_log_records_witness :
    bodyTextOf reqHealth = some "" ∧
    (logMessages (do_GET reqHealth).events =
      ["Path: " ++ reqHealth.path, "Method: " ++ reqHealth.command,
       "Headers: " ++ renderHeaders reqHealth.headers, "Body: " ++ ""] ∧
    logMessages (do_POST reqHealth).events =
      ["Path: " ++ reqHealth.path, "Method: " ++ reqHealth.command,
       "Headers: " ++ renderHeaders reqHealth.headers, "Body: " ++ ""]) :=
  ⟨by decide, c3_four_log_records reqHealth "" (by decide)⟩

/-- C4 (confirmed): for every POST request with a `Content-Length` header
parsing to `N > 0` and a body stream of at least `N` bytes whose first `N`
bytes decode as text `s`, the logged body text is exactly `s` and the bytes
beyond the first `N` are left unconsumed on the stream. -/
theorem c4_content_length_honored (p : String) (hs : List (String × String))
    (rf : List Byte) (v : String) (N : Int) (s : String)
    (hv : headersGet hs "Content-Length" = some v) (hp : pyInt v = some N) (hN : 0 < N)
    (hlen : N.toNat ≤ rf.length) (hdec : utf8Decode (rf.take N.toNat) = some s) :
    logMessages (do_POST { path := p, command := "POST", headers := hs, rfile := rf }).events =
      ["Path: " ++ p, "Method: " ++ "POST", "Headers: " ++ renderHeaders hs, "Body: " ++ s] ∧
    (do_POST { path := p, command := "POST", headers := hs, rfile := rf }).rfileRest =
      rf.drop N.toNat := by
  have hcl : contentLengthOf hs = some N := by
    unfold contentLengthOf
    rw [hv]
    exact hp
  have hread : pyRead N rf = (rf.take N.toNat, rf.drop N.toNat) := by
    unfold pyRead
    rw [if_neg (by omega : ¬ N < 0)]
  have h0 : N ≠ 0 := by omega
  have hd : utf8Decode (pyRead N rf).1 = some s := by
    rw [hread]
    exact hdec
  have hlri := lri_ok { path := p, command := "POST", headers := hs, rfile := rf } N s hcl h0 hd
  have hout :
      (log_request_info { path := p, command := "POST", headers := hs, rfile := rf }).outcome
        = none := by
    rw [hlri]
  have hg := do_GET_ok { path := p, command := "POST", headers := hs, rfile := rf } hout
  constructor
  · rw [← do_GET_eq_do_POST, hg, logMessages_append, logMessages_respondEvents,
       List.append_nil]
    rw [hlri]
    rfl
  · rw [← do_GET_eq_do_POST, hg]
    show (log_request_info { path := p, command := "POST", headers := hs, rfile := rf }).rfileRest
      = rf.drop N.toNat
    rw [hlri]
    show (pyRead N rf).2 = rf.drop N.toNat
    rw [hread]

/-- C4 (witness): the confirmed statement evaluated on `reqHello`
(`Content-Length: 11`, stream `hello world!!`): the logged body is
`hello world` and the two bytes beyond the first 11 stay on the stream. -/
theorem c4_content_length_honored_witness :
    headersGet reqHello.headers "Content-Length" = some "11" ∧
    pyInt "11" = some 11 ∧ (0 : Int) < 11 ∧
    (11 : Int).toNat ≤ reqHello.rfile.length ∧
    utf8Decode (reqHello.rfile.take (11 : Int).toNat) = some "hello world" ∧
    (logMessages (do_POST reqHello).events =
      ["Path: " ++ "/echo", "Method: " ++ "POST",
       "Headers: " ++ renderHeaders reqHello.headers, "Body: " ++ "hello world"] ∧
    (do_POST reqHello).rfileRest = reqHello.rfile.drop (11 : Int).toNat) :=
  ⟨by decide, by decide, by decide, by decide, by decide,
   c4_content_length_honored "/echo" reqHello.headers reqHello.rfile "11" 11 "hello world"
     (by decide) (by decide) (by decide) (by decide) (by decide)⟩

/-- C5 (confirmed): a POST with no `Content-Length` header, or one whose
value parses to 0, performs no read from the body stream (the stream is
untouched and no read step occurs) and logs the empty body string. -/
theorem c5_zero_length_no_read (p : String) (hs : List (String × String)) (rf : List Byte)
    (h : headersGet hs "Content-Length" = none ∨
         ∃ v, headersGet hs "Content-Length" = some v ∧ pyInt v = some 0) :
    (do_POST { path := p, command := "POST", headers := hs, rfile := rf }).rfileRest = rf ∧
    (∀ (n : Int) (bs : List Byte),
      Event.read n bs ∉ (do_POST { path := p, command := "POST", headers := hs, rfile := rf }).events) ∧
    logMessages (do_POST { path := p, command := "POST", headers := hs, rfile := rf }).events =
      ["Path: " ++ p, "Method: " ++ "POST", "Headers: " ++ renderHeaders hs, "Body: " ++ ""] := by
  have hcl : contentLengthOf hs = some 0 := by
    rcases h with h | ⟨v, hv, hp⟩
    · unfold contentLengthOf
      rw [h]
    · unfold contentLengthOf
      rw [hv]
      exact hp
  have hlri := lri_zero { path := p, command := "POST", headers := hs, rfile := rf } hcl
  have hout :
      (log_request_info { path := p, command := "POST", headers := hs, rfile := rf }).outcome
        = none := by
    rw [hlri]
  have hg := do_GET_ok { path := p, command := "POST", headers := hs, rfile := rf } hout
  rw [← do_GET_eq_do_POST, hg]
  refine ⟨?_, ?_, ?_⟩
  · show (log_request_info { path := p, command := "POST", headers := hs, rfile := rf }).rfileRest = rf
    rw [hlri]
  · intro n bs hmem
    show False
    rw [hlri] at hmem
    simp [respondEvents] at hmem
  · rw [logMessages_append, logMessages_respondEvents, List.append_nil, hlri]
    rfl

/-- C5 (witness): the confirmed statement evaluated on `reqZero`
(`Content-Length: 0` with a byte available): nothing is read. -/
theorem c5_zero_length_no_read_witness :
    (headersGet reqZero.headers "Content-Length" = some "0" ∧ pyInt "0" = some 0) ∧
    ((do_POST reqZero).rfileRest = reqZero.rfile ∧
    (∀ (n : Int) (bs : List Byte),
      Event.read n bs ∉ (do_POST reqZero).events) ∧
    logMessages (do_POST reqZero).events =
      ["Path: " ++ "/z", "Method: " ++ "POST",
       "Headers: " ++ renderHeaders reqZero.headers, "Body: " ++ ""]) :=
  ⟨⟨by decide, by decide⟩,
   c5_zero_length_no_read "/z" reqZero.headers reqZero.rfile
     (Or.inr ⟨"0", by decide, by decide⟩)⟩

/-- C6 (confirmed): for any request carrying two headers with the same name
(shown here at arbitrary positions in the list), the logged header block —
the third log record — contains a line for each occurrence, in wire order:
the block is the concatenation of the lines of `pre`, the line of the first
occurrence, the lines of `mid`, the line of the second occurrence, and the
lines of `post`. -/
theorem c6_duplicate_headers (p c : String) (pre mid post : List (String × String))
    (n v v2 : String) (rf : List Byte) (b : String)
    (h : bodyTextOf { path := p, command := c, headers := pre ++ (n, v) :: (mid ++ (n, v2) :: post), rfile := rf } = some b) :
    (logMessages (do_GET { path := p, command := c, headers := pre ++ (n, v) :: (mid ++ (n, v2) :: post), rfile := rf }).events)[2]? =
      some ("Headers: " ++ (hsBlock pre ++ (headerLine (n, v) ++
        (hsBlock mid ++ (headerLine (n, v2) ++ (hsBlock post ++ "\n")))))) ∧
    (logMessages (do_POST { path := p, command := c, headers := pre ++ (n, v) :: (mid ++ (n, v2) :: post), rfile := rf }).events)[2]? =
      some ("Headers: " ++ (hsBlock pre ++ (headerLine (n, v) ++
        (hsBlock mid ++ (headerLine (n, v2) ++ (hsBlock post ++ "\n")))))) := by
  have hmsg := logMessages_do_GET _ b h
  have hblock : renderHeaders (pre ++ (n, v) :: (mid ++ (n, v2) :: post)) =
      hsBlock pre ++ (headerLine (n, v) ++
        (hsBlock mid ++ (headerLine (n, v2) ++ (hsBlock post ++ "\n")))) := by
    unfold renderHeaders
    rw [hsBlock_append]
    show hsBlock pre ++ (headerLine (n, v) ++ hsBlock (mid ++ (n, v2) :: post)) ++ "\n" = _
    rw [hsBlock_append]
    show hsBlock pre ++ (headerLine (n, v) ++ (hsBlock mid ++ (headerLine (n, v2) ++ hsBlock post))) ++ "\n" = _
    simp [String.append_assoc]
  constructor
  · rw [hmsg]
    show some ("Headers: " ++ renderHeaders (pre ++ (n, v) :: (mid ++ (n, v2) :: post))) = _
    rw [hblock]
  · rw [← do_GET_eq_do_POST, hmsg]
    show some ("Headers: " ++ renderHeaders (pre ++ (n, v) :: (mid ++ (n, v2) :: post))) = _
    rw [hblock]

/-- C6 (witness): the confirmed statement evaluated on `reqDup`, whose two
`X-Trace-Id` headers both appear, in order, in the logged header block. -/
theorem c6_duplicate_headers_witness :
    bodyTextOf reqDup = some "" ∧
    ((logMessages (do_GET reqDup).events)[2]? =
      some ("Headers: " ++ (hsBlock [] ++ (headerLine ("X-Trace-Id", "a") ++
        (hsBlock [("Host", "h")] ++ (headerLine ("X-Trace-Id", "b") ++ (hsBlock [] ++ "\n")))))) ∧
    (logMessages (do_POST reqDup).events)[2]? =
      some ("Headers: " ++ (hsBlock [] ++ (headerLine ("X-Trace-Id", "a") ++
        (hsBlock [("Host", "h")] ++ (headerLine ("X-Trace-Id", "b") ++ (hsBlock [] ++ "\n"))))))) :=
  ⟨by decide,
   c6_duplicate_headers "/t" "POST" [] [("Host", "h")] [] "X-Trace-Id" "a" "b" [] ""
     (by decide)⟩

/-- C7 (confirmed): in any handled GET or POST request, every
`send_response` step comes strictly after every log record in the step
sequence: a log write precedes the response write, and the response is
never sent first. -/
theorem c7_log_before_response (req : Request) (i j st : Nat) (m : String) :
    ((do_GET req).events[i]? = some (Event.sendResponse st) →
      (do_GET req).events[j]? = some (Event.logInfo m) → j < i) ∧
    ((do_POST req).events[i]? = some (Event.sendResponse st) →
      (do_POST req).events[j]? = some (Event.logInfo m) → j < i) := by
  have main : (do_GET req).events[i]? = some (Event.sendResponse st) →
      (do_GET req).events[j]? = some (Event.logInfo m) → j < i := by
    intro hi hj
    rcases hout : (log_request_info req).outcome with _ | e
    · rw [do_GET_ok req hout] at hi hj
      have hile : (log_request_info req).events.length ≤ i := by
        by_contra hlt
        push_neg at hlt
        rw [List.getElem?_append_left hlt] at hi
        have hmem := List.getElem?_mem hi
        have := isSend_false_of_mem_lri hmem
        simp [isSend] at this
      have hjlt : j < (log_request_info req).events.length := by
        by_contra hge
        push_neg at hge
        rw [List.getElem?_append_right hge] at hj
        have hmem := List.getElem?_mem hj
        exact not_logInfo_mem_respondEvents m hmem
      omega
    · rw [do_GET_err req e hout] at hi
      have hmem := List.getElem?_mem hi
      have := isSend_false_of_mem_lri hmem
      simp [isSend] at this
  exact ⟨main, by rw [← do_GET_eq_do_POST]; exact main⟩

/-- C7 (witness): the confirmed statement evaluated on `reqHealth`: the
response step sits at index 4, after the log record at index 0. -/
theorem c7_log_before_response_witness :
    (do_GET reqHealth).events[4]? = some (Event.sendResponse 200) ∧
    (do_GET reqHealth).events[0]? = some (Event.logInfo ("Path: " ++ reqHealth.path)) ∧
    (0 : Nat) < 4 :=
  ⟨by decide, by decide,
   (c7_log_before_response reqHealth 4 0 200 ("Path: " ++ reqHealth.path)).1
     (by decide) (by decide)⟩

/-- C8 (confirmed): `do_GET` and `do_POST` run the identical step sequence
(they are the same function of the request state); and handling the same
request data as GET versus as POST yields the same stream consumption, the
same outcome, and the same events except that the Method log record carries
the request's own method. -/
theorem c8_get_post_equivalent :
    (∀ req : Request, do_GET req = do_POST req) ∧
    (∀ (p : String) (hs : List (String × String)) (rf : List Byte),
      (do_POST { path := p, command := "POST", headers := hs, rfile := rf }).events =
        ((do_GET { path := p, command := "GET", headers := hs, rfile := rf }).events.map
          (swapMethod "GET" "POST")) ∧
      (do_POST { path := p, command := "POST", headers := hs, rfile := rf }).rfileRest =
        (do_GET { path := p, command := "GET", headers := hs, rfile := rf }).rfileRest ∧
      (do_POST { path := p, command := "POST", headers := hs, rfile := rf }).outcome =
        (do_GET { path := p, command := "GET", headers := hs, rfile := rf }).outcome) := by
  refine ⟨fun req => rfl, fun p hs rf => ?_⟩
  rcases hcl : contentLengthOf hs with _ | cl
  · have hG := lri_valueError { path := p, command := "GET", headers := hs, rfile := rf } hcl
    have hP := lri_valueError { path := p, command := "POST", headers := hs, rfile := rf } hcl
    rw [← do_GET_eq_do_POST, do_GET_err _ PyError.valueError (by rw [hP]),
       do_GET_err _ PyError.valueError (by rw [hG]), hG, hP]
    exact ⟨rfl, rfl, rfl⟩
  · by_cases h0 : cl = 0
    · subst h0
      have hG := lri_zero { path := p, command := "GET", headers := hs, rfile := rf } hcl
      have hP := lri_zero { path := p, command := "POST", headers := hs, rfile := rf } hcl
      rw [← do_GET_eq_do_POST, do_GET_ok _ (by rw [hP]), do_GET_ok _ (by rw [hG]), hG, hP]
      refine ⟨?_, rfl, rfl⟩
      simp [respondEvents, swapMethod, methodMsg, path_msg_ne, headers_msg_ne, body_msg_ne]
    · rcases hd : utf8Decode (pyRead cl rf).1 with _ | b
      · have hG := lri_decodeError { path := p, command := "GET", headers := hs, rfile := rf }
          cl hcl h0 hd
        have hP := lri_decodeError { path := p, command := "POST", headers := hs, rfile := rf }
          cl hcl h0 hd
        rw [← do_GET_eq_do_POST, do_GET_err _ PyError.unicodeDecodeError (by rw [hP]),
           do_GET_err _ PyError.unicodeDecodeError (by rw [hG]), hG, hP]
        refine ⟨?_, rfl, rfl⟩
        simp [swapMethod, methodMsg]
      · have hG := lri_ok { path := p, command := "GET", headers := hs, rfile := rf }
          cl b hcl h0 hd
        have hP := lri_ok { path := p, command := "POST", headers := hs, rfile := rf }
          cl b hcl h0 hd
        rw [← do_GET_eq_do_POST, do_GET_ok _ (by rw [hP]), do_GET_ok _ (by rw [hG]), hG, hP]
        refine ⟨?_, rfl, rfl⟩
        simp [respondEvents, swapMethod, methodMsg, path_msg_ne, headers_msg_ne, body_msg_ne]

/-- C9 (confirmed): when `Content-Length` parses to `N > 0` and the first
`N` body bytes are not valid UTF-8, the handler raises the decode error
before emitting any log field: no log record is produced and no
`send_response(200)` step occurs, for GET and POST alike. -/
theorem c9_decode_error (req : Request) (N : Int)
    (hcl : contentLengthOf req.headers = some N) (hN : 0 < N)
    (hdec : utf8Decode (req.rfile.take N.toNat) = none) :
    ((do_GET req).outcome = some PyError.unicodeDecodeError ∧
     logMessages (do_GET req).events = [] ∧
     ∀ st, Event.sendResponse st ∉ (do_GET req).events) ∧
    ((do_POST req).outcome = some PyError.unicodeDecodeError ∧
     logMessages (do_POST req).events = [] ∧
     ∀ st, Event.sendResponse st ∉ (do_POST req).events) := by
  have h0 : N ≠ 0 := by omega
  have hd : utf8Decode (pyRead N req.rfile).1 = none := by
    unfold pyRead
    rw [if_neg (by omega : ¬ N < 0)]
    exact hdec
  have hlri := lri_decodeError req N hcl h0 hd
  have hout : (log_request_info req).outcome = some PyError.unicodeDecodeError := by
    rw [hlri]
  have main : (do_GET req).outcome = some PyError.unicodeDecodeError ∧
      logMessages (do_GET req).events = [] ∧
      ∀ st, Event.sendResponse st ∉ (do_GET req).events := by
    rw [do_GET_err req PyError.unicodeDecodeError hout, hlri]
    refine ⟨rfl, rfl, ?_⟩
    intro st hmem
    simp at hmem
  exact ⟨main, by rw [← do_GET_eq_do_POST]; exact main⟩

/-- C9 (witness): the confirmed statement evaluated on `reqBadUtf8`, whose
single declared body byte `0xFF` is not valid UTF-8. -/
theorem c9_decode_error_witness :
    contentLengthOf reqBadUtf8.headers = some 1 ∧ (0 : Int) < 1 ∧
    utf8Decode (reqBadUtf8.rfile.take (1 : Int).toNat) = none ∧
    (((do_GET reqBadUtf8).outcome = some PyError.unicodeDecodeError ∧
      logMessages (do_GET reqBadUtf8).events = [] ∧
      ∀ st, Event.sendResponse st ∉ (do_GET reqBadUtf8).events) ∧
    ((do_POST reqBadUtf8).outcome = some PyError.unicodeDecodeError ∧
      logMessages (do_POST reqBadUtf8).events = [] ∧
      ∀ st, Event.sendResponse st ∉ (do_POST reqBadUtf8).events)) :=
  ⟨by decide, by decide, by decide,
   c9_decode_error reqBadUtf8 1 (by decide) (by decide) (by decide)⟩

/-- C10 (confirmed): a `Content-Length` header parsing to a negative integer
is not treated as zero: the value is nonzero, so the handler's first step is
a body read with that negative count (returning the whole remaining stream,
as a negative count reads to end of stream) rather than the no-read
empty-body path. -/
theorem c10_negative_length (req : Request) (v : String) (N : Int)
    (hv : headersGet req.headers "Content-Length" = some v)
    (hp : pyInt v = some N) (hneg : N < 0) :
    N ≠ 0 ∧ (log_request_info req).events.head? = some (Event.read N req.rfile) := by
  have hcl : contentLengthOf req.headers = some N := by
    unfold contentLengthOf
    rw [hv]
    exact hp
  have h0 : N ≠ 0 := by omega
  have hread : pyRead N req.rfile = (req.rfile, []) := by
    unfold pyRead
    rw [if_pos hneg]
  refine ⟨h0, ?_⟩
  rcases hd : utf8Decode (pyRead N req.rfile).1 with _ | b
  · rw [lri_decodeError req N hcl h0 hd]
    show some (Event.read N (pyRead N req.rfile).1) = some (Event.read N req.rfile)
    rw [hread]
  · rw [lri_ok req N b hcl h0 hd]
    show some (Event.read N (pyRead N req.rfile).1) = some (Event.read N req.rfile)
    rw [hread]

/-- C10 (witness): the confirmed statement evaluated on `reqNeg`
(`Content-Length: -5`): the first step is `read(-5)`. -/
theorem c10_negative_length_witness :
    headersGet reqNeg.headers "Content-Length" = some "-5" ∧
    pyInt "-5" = some (-5) ∧ (-5 : Int) < 0 ∧
    ((-5 : Int) ≠ 0 ∧
      (log_request_info reqNeg).events.head? = some (Event.read (-5) reqNeg.rfile)) :=
  ⟨by decide, by decide, by decide,
   c10_negative_length reqNeg "-5" (-5) (by decide) (by decide) (by decide)⟩

end SimpleServer
